import Mathlib

set_option maxRecDepth 65536

/-!
Verification of the weather-announcer script (`weather_announcer.py`): a
shallow embedding of its fetch / format / announce pipeline, followed by
theorems settling the specification's claims about it.

Modelling conventions:
* JSON numbers are rationals (`ℚ`); the script's observations carry one
  decimal place (`numericPrecision=decimal`).
* Python's falsy test on configuration strings (`not WU_API_KEY`) is
  modelled as equality with `""` (both `None` and the empty string are
  falsy, and neither carries more information the script uses).
* I/O is made explicit: the network outcome is an input (`NetResult`),
  the console output is a returned list of lines, and the wall clock read
  by `datetime.now().strftime('%H:%M')` is an explicit `String` argument.
* Exception text generated by third-party libraries (the message of a
  `RequestException`, of a JSON `ValueError`) is carried as data inside
  `NetResult`, since the script only prints it.
-/

/-- Python slicing `s[:8]`, used for the API-key diagnostic line. -/
def pyTake8 (s : String) : String := ⟨s.data.take 8⟩

/-- Digits of a nonnegative decimal with at most one fractional digit:
integer part, and one digit after the point when the value is not an
integer.  Stands for Python's `str()` on the numbers this script handles
(the API is called with `numericPrecision=decimal`, one decimal place). -/
def decCore (q : ℚ) : String :=
  if q.den = 1 then toString q.num.natAbs
  else toString (q.num.natAbs / q.den) ++ "." ++ toString (q.num.natAbs * 10 / q.den % 10)

/-- Python's `str()` of a one-decimal number: sign then digits. -/
def pyStr (q : ℚ) : String := (if q < 0 then "-" else "") ++ decCore q

/-- `p` occurs contiguously inside `s`. -/
def IsSubstr (p s : String) : Prop := p.data <:+: s.data

instance (p s : String) : Decidable (IsSubstr p s) :=
  inferInstanceAs (Decidable (p.data <:+: s.data))

/-- The record `get_weather_data` returns (source lines 85–92): the six
fields extracted from the first observation. -/
structure Weather where
  temperature : ℚ
  humidity : ℚ
  pressure : ℚ
  wind_speed : ℚ
  wind_direction : ℚ
  conditions : String
  deriving DecidableEq

/-- The fixed table of named angular intervals (source lines 113–122), in
source order; each entry is `(label, min_angle, max_angle)`. -/
def cardinal_directions : List (String × ℚ × ℚ) :=
  [("N", 337.5, 22.5),
   ("NE", 22.5, 67.5),
   ("E", 67.5, 112.5),
   ("SE", 112.5, 157.5),
   ("S", 157.5, 202.5),
   ("SW", 202.5, 247.5),
   ("W", 247.5, 292.5),
   ("NW", 292.5, 337.5)]

/-- The classification loop of `format_weather_message` (source lines
124–128): `wind_cardinal` starts as `"N"`, the loop takes the first entry
with `min_angle <= wind_direction < max_angle` and breaks; `find?` returns
that first match, and `none` keeps the initial `"N"`. -/
def windCardinal (wd : ℚ) : String :=
  match cardinal_directions.find? (fun e => decide (e.2.1 ≤ wd ∧ wd < e.2.2)) with
  | some e => e.1
  | none => "N"

/-- `format_weather_message` (source lines 106–138).  `weather_data` is
`none` for Python's `None` (the `if not weather_data` branch); `now` is the
wall-clock `HH:MM` text read at format time. -/
def format_weather_message (weather_data : Option Weather) (now : String) : String :=
  match weather_data with
  | none => "Unable to get weather data at this time."
  | some w =>
      "Current weather conditions: " ++ w.conditions ++ ". " ++
      "Temperature " ++ pyStr w.temperature ++ " degrees Celsius. " ++
      "Humidity " ++ pyStr w.humidity ++ " percent. " ++
      "Wind " ++ pyStr w.wind_speed ++ " kilometers per hour from " ++
        windCardinal w.wind_direction ++ ". " ++
      "Pressure " ++ pyStr w.pressure ++ " millibars. " ++
      "Reported at " ++ now ++ " local time."

/-- The observation-determined part of the formatted message: everything
before the `Reported at` clock stamp. -/
def messageBody (w : Weather) : String :=
  "Current weather conditions: " ++ w.conditions ++ ". " ++
  "Temperature " ++ pyStr w.temperature ++ " degrees Celsius. " ++
  "Humidity " ++ pyStr w.humidity ++ " percent. " ++
  "Wind " ++ pyStr w.wind_speed ++ " kilometers per hour from " ++
    windCardinal w.wind_direction ++ ". " ++
  "Pressure " ++ pyStr w.pressure ++ " millibars. "

/-- The `metric` sub-object of an observation, with the three subfields
`get_weather_data` validates; a field is `none` when the key is absent. -/
structure MetricJson where
  temp : Option ℚ
  pressure : Option ℚ
  windSpeed : Option ℚ
  deriving DecidableEq

/-- One element of the `observations` array, restricted to the keys
`get_weather_data` reads; a field is `none` when the key is absent. -/
structure ObsJson where
  metric : Option MetricJson
  humidity : Option ℚ
  winddir : Option ℚ
  wxPhraseLong : Option String
  wxPhrase : Option String
  wxPhraseShort : Option String
  deriving DecidableEq

/-- A decoded response document; `observations = none` models a JSON
object without the `observations` key. -/
structure ApiDoc where
  observations : Option (List ObsJson)
  deriving DecidableEq

/-- A response body: either text that is not valid JSON (”response.json()`
raises `ValueError` with message `errMsg`), or text `raw` that decodes to
`doc`. -/
inductive Body where
  | invalidJson (raw errMsg : String)
  | json (raw : String) (doc : ApiDoc)
  deriving DecidableEq

/-- `response.text`, printed in the error branches. -/
def Body.rawText : Body → String
  | .invalidJson raw _ => raw
  | .json raw _ => raw

/-- Outcome of `requests.get`: a transport-level `RequestException`
carrying message `msg`, or a response with an HTTP status and a body. -/
inductive NetResult where
  | exn (msg : String)
  | resp (status : Nat) (body : Body)
  deriving DecidableEq

/-- The environment configuration the fetch stage reads (source lines
11–12); `""` stands for an unset or empty variable (both are falsy). -/
structure Config where
  WU_STATION_ID : String
  WU_API_KEY : String
  deriving DecidableEq

/-- Which early-return site of `get_weather_data` fired; the source
returns `None` at each of them, distinguished only by the diagnostic line
it prints.  This is the spec's error taxonomy. -/
inductive FetchErr where
  | configError
  | networkError (msg : String)
  | httpError (status : Nat)
  | parseError (msg : String)
  | noObservations
  | missingField (name : String)
  | missingSubfield (sub field : String)
  deriving DecidableEq

/-- Rendering of an optional number inside `docRepr`. -/
def reprOptQ : Option ℚ → String
  | none => "missing"
  | some q => pyStr q

/-- Rendering of one observation inside `docRepr`. -/
def reprObs (o : ObsJson) : String :=
  "(metric: " ++
    (match o.metric with
     | none => "missing"
     | some m =>
         "(temp: " ++ reprOptQ m.temp ++ ", pressure: " ++ reprOptQ m.pressure ++
           ", windSpeed: " ++ reprOptQ m.windSpeed ++ ")") ++
  ", humidity: " ++ reprOptQ o.humidity ++ ", winddir: " ++ reprOptQ o.winddir ++ ")"

/-- Text of a decoded document, for the `print("API Response:", data)`
lines.  Stands for Python's `repr` of the parsed dictionary; no claim
depends on its exact text, only on it being a function of the document. -/
def docRepr (d : ApiDoc) : String :=
  match d.observations with
  | none => "()"
  | some os => "(observations: [" ++ String.intercalate ", " (os.map reprObs) ++ "])"

/-- The debug URL printed at source line 43–44: every query parameter in
dictionary order except `apiKey`. -/
def debugUrl (station : String) : String :=
  "https://api.weather.com/v2/pws/observations/current?stationId=" ++ station ++
    "&format=json&units=m&numericPrecision=decimal"

/-- The URL the HTTP GET actually requests (endpoint plus all query
parameters, `apiKey` included). -/
def requestUrl (cfg : Config) : String :=
  "https://api.weather.com/v2/pws/observations/current?stationId=" ++ cfg.WU_STATION_ID ++
    "&format=json&units=m&apiKey=" ++ cfg.WU_API_KEY ++ "&numericPrecision=decimal"

/-- The conditions fallback chain (source lines 76–83):
`wxPhraseLong`, then `wxPhrase`, then `wxPhraseShort`, else `"Unknown"`. -/
def conditionsOf (o : ObsJson) : String :=
  match o.wxPhraseLong with
  | some c => c
  | none =>
      match o.wxPhrase with
      | some c => c
      | none =>
          match o.wxPhraseShort with
          | some c => c
          | none => "Unknown"

/-- `get_weather_data` (source lines 21–104): console lines printed, and
either the extracted record or the early-return site that fired (the
source returns `None` there).  Validation order follows the source: the
`required_fields` iteration checks `metric` (with subfields `temp`,
`pressure`, `windSpeed` in list order), then `humidity`, then `winddir`. -/
def get_weather_data (cfg : Config) (net : NetResult) :
    List String × Except FetchErr Weather :=
  if cfg.WU_API_KEY = "" ∨ cfg.WU_STATION_ID = "" then
    (["Error: WU_API_KEY or WU_STATION_ID not set in .env file"], .error .configError)
  else
    match net with
    | .exn msg =>
        (["Requesting weather data from station: " ++ cfg.WU_STATION_ID,
          "Using API key: " ++ pyTake8 cfg.WU_API_KEY ++ "...",
          "Network error getting weather data: " ++ msg],
         .error (.networkError msg))
    | .resp status body =>
        if 400 ≤ status then
          (["Requesting weather data from station: " ++ cfg.WU_STATION_ID,
            "Using API key: " ++ pyTake8 cfg.WU_API_KEY ++ "...",
            "Request URL: " ++ debugUrl cfg.WU_STATION_ID,
            "Network error getting weather data: HTTP error " ++ toString status,
            "API Error Response: " ++ body.rawText],
           .error (.httpError status))
        else
          match body with
          | .invalidJson raw err =>
              (["Requesting weather data from station: " ++ cfg.WU_STATION_ID,
                "Using API key: " ++ pyTake8 cfg.WU_API_KEY ++ "...",
                "Request URL: " ++ debugUrl cfg.WU_STATION_ID,
                "Error parsing API response: " ++ err,
                "API Response: " ++ raw],
               .error (.parseError err))
          | .json _ doc =>
              match doc.observations with
              | none =>
                  (["Requesting weather data from station: " ++ cfg.WU_STATION_ID,
                    "Using API key: " ++ pyTake8 cfg.WU_API_KEY ++ "...",
                    "Request URL: " ++ debugUrl cfg.WU_STATION_ID,
                    "API Response received. Checking data structure...",
                    "Error: No observations found in API response",
                    "API Response: " ++ docRepr doc],
                   .error .noObservations)
              | some [] =>
                  (["Requesting weather data from station: " ++ cfg.WU_STATION_ID,
                    "Using API key: " ++ pyTake8 cfg.WU_API_KEY ++ "...",
                    "Request URL: " ++ debugUrl cfg.WU_STATION_ID,
                    "API Response received. Checking data structure...",
                    "Error: No observations found in API response",
                    "API Response: " ++ docRepr doc],
                   .error .noObservations)
              | some (o :: _) =>
                  match o.metric with
                  | none =>
                      (["Requesting weather data from station: " ++ cfg.WU_STATION_ID,
                        "Using API key: " ++ pyTake8 cfg.WU_API_KEY ++ "...",
                        "Request URL: " ++ debugUrl cfg.WU_STATION_ID,
                        "API Response received. Checking data structure...",
                        "Error: Missing field 'metric' in observation data"],
                       .error (.missingField "metric"))
                  | some m =>
                      match m.temp with
                      | none =>
                          (["Requesting weather data from station: " ++ cfg.WU_STATION_ID,
                            "Using API key: " ++ pyTake8 cfg.WU_API_KEY ++ "...",
                            "Request URL: " ++ debugUrl cfg.WU_STATION_ID,
                            "API Response received. Checking data structure...",
                            "Error: Missing subfield 'temp' in metric"],
                           .error (.missingSubfield "temp" "metric"))
                      | some t =>
                          match m.pressure with
                          | none =>
                              (["Requesting weather data from station: " ++ cfg.WU_STATION_ID,
                                "Using API key: " ++ pyTake8 cfg.WU_API_KEY ++ "...",
                                "Request URL: " ++ debugUrl cfg.WU_STATION_ID,
                                "API Response received. Checking data structure...",
                                "Error: Missing subfield 'pressure' in metric"],
                               .error (.missingSubfield "pressure" "metric"))
                          | some p =>
                              match m.windSpeed with
                              | none =>
                                  (["Requesting weather data from station: " ++ cfg.WU_STATION_ID,
                                    "Using API key: " ++ pyTake8 cfg.WU_API_KEY ++ "...",
                                    "Request URL: " ++ debugUrl cfg.WU_STATION_ID,
                                    "API Response received. Checking data structure...",
                                    "Error: Missing subfield 'windSpeed' in metric"],
                                   .error (.missingSubfield "windSpeed" "metric"))
                              | some ws =>
                                  match o.humidity with
                                  | none =>
                                      (["Requesting weather data from station: " ++ cfg.WU_STATION_ID,
                                        "Using API key: " ++ pyTake8 cfg.WU_API_KEY ++ "...",
                                        "Request URL: " ++ debugUrl cfg.WU_STATION_ID,
                                        "API Response received. Checking data structure...",
                                        "Error: Missing field 'humidity' in observation data"],
                                       .error (.missingField "humidity"))
                                  | some hum =>
                                      match o.winddir with
                                      | none =>
                                          (["Requesting weather data from station: " ++ cfg.WU_STATION_ID,
                                            "Using API key: " ++ pyTake8 cfg.WU_API_KEY ++ "...",
                                            "Request URL: " ++ debugUrl cfg.WU_STATION_ID,
                                            "API Response received. Checking data structure...",
                                            "Error: Missing field 'winddir' in observation data"],
                                           .error (.missingField "winddir"))
                                      | some wdir =>
                                          (["Requesting weather data from station: " ++ cfg.WU_STATION_ID,
                                            "Using API key: " ++ pyTake8 cfg.WU_API_KEY ++ "...",
                                            "Request URL: " ++ debugUrl cfg.WU_STATION_ID,
                                            "API Response received. Checking data structure..."],
                                           .ok ⟨t, hum, p, ws, wdir, conditionsOf o⟩)

/-- The console lines `get_weather_data` prints. -/
def fetchPrints (cfg : Config) (net : NetResult) : List String :=
  (get_weather_data cfg net).1

/-- The value `get_weather_data` returns. -/
def fetchResult (cfg : Config) (net : NetResult) : Except FetchErr Weather :=
  (get_weather_data cfg net).2

/-- Externally visible effects of the script: an HTTP GET, or a telephony
`Originate` action handed to the manager interface. -/
inductive Event where
  | httpGet (url : String)
  | originate (channel msg : String)
  deriving DecidableEq

/-- The observable effect `announce_to_allstar` (source lines 140–162)
would produce for node `node` and a rendered message `msg`: one
`Originate` action on channel `Local/<node>@from-internal`.  `main`
(source lines 164–237) never invokes this function. -/
def announce_to_allstar (node msg : String) : List Event :=
  [.originate ("Local/" ++ node ++ "@from-internal") msg]

/-- The HTTP/telephony events of one `main` invocation (source lines
164–237): the GET inside `get_weather_data` (issued only when the
configuration check passes), and — when the fetch succeeded — the second
GET of the raw-response debug dump (source lines 174–183).  `main` never
calls `announce_to_allstar`, so no `originate` event ever occurs. -/
def mainEvents (cfg : Config) (net1 : NetResult) : List Event :=
  (if cfg.WU_API_KEY = "" ∨ cfg.WU_STATION_ID = "" then [] else [.httpGet (requestUrl cfg)]) ++
  (match (get_weather_data cfg net1).2 with
   | .ok _ => [.httpGet (requestUrl cfg)]
   | .error _ => [])

/-- Number of HTTP GET events in a trace. -/
def countGets (es : List Event) : Nat :=
  (es.filter fun e => match e with | .httpGet _ => true | _ => false).length

/-- Number of telephony origination events in a trace. -/
def countOriginates (es : List Event) : Nat :=
  (es.filter fun e => match e with | .originate _ _ => true | _ => false).length

/-- The diagnostic line `print(f"Error: Missing field '{field}' in
observation data")` of source line 68. -/
def missingFieldLine (f : String) : String :=
  "Error: Missing field '" ++ f ++ "' in observation data"

/-- The diagnostic line `print(f"Error: Missing subfield '{subfield}' in
{field}")` of source line 73. -/
def missingSubfieldLine (sub field : String) : String :=
  "Error: Missing subfield '" ++ sub ++ "' in " ++ field

/-- Some field of the source's `required_fields` specification (lines
60–64) is absent from the first observation element: `metric` (or one of
its subfields `temp`, `pressure`, `windSpeed`), `humidity`, or
`winddir`. -/
def requiredFieldMissing (o : ObsJson) : Prop :=
  o.metric = none ∨
  (∃ m, o.metric = some m ∧ (m.temp = none ∨ m.pressure = none ∨ m.windSpeed = none)) ∨
  o.humidity = none ∨ o.winddir = none

/-- A fully-populated sample observation, used by concrete witnesses. -/
def sampleObs : ObsJson :=
  ⟨some ⟨some 22, some 1013, some 10⟩, some 60, some 190, some "Cloudy", none, none⟩

/-- A sample observation lacking the `humidity` key. -/
def sampleObsNoHumidity : ObsJson :=
  ⟨some ⟨some 22, some 1013, some 10⟩, none, some 190, some "Cloudy", none, none⟩

/-- A sample configuration with both variables set. -/
def sampleConfig : Config := ⟨"KMXTJ42", "SECRETKEY123"⟩

/-- A 200 response whose document holds one fully-populated observation. -/
def sampleNet : NetResult := .resp 200 (.json "(raw body)" ⟨some [sampleObs]⟩)

/-- The record the fetch extracts from `sampleNet`. -/
def sampleWeather : Weather := ⟨22, 60, 1013, 10, 190, "Cloudy"⟩

/-! ## Helper lemmas -/

theorem isSubstr_append_left {p a : String} (b : String) (h : IsSubstr p a) :
    IsSubstr p (a ++ b) := by
  unfold IsSubstr at h ⊢
  rw [String.data_append]
  exact h.trans ⟨[], b.data, rfl⟩

/-- No entry of the table matches an angle below 22.5 or at or above
337.5: the `N` row's test `337.5 ≤ wd ∧ wd < 22.5` is unsatisfiable, and
the seven other rows lie inside `[22.5, 337.5)`. -/
theorem no_match_outside (wd : ℚ) (h : wd < 22.5 ∨ 337.5 ≤ wd) :
    ∀ e ∈ cardinal_directions, ¬(e.2.1 ≤ wd ∧ wd < e.2.2) := by
  intro e he
  unfold cardinal_directions at he
  rcases h with h | h <;>
    fin_cases he <;> rintro ⟨h1, h2⟩ <;> norm_num at h1 h2 <;> linarith

/-- When no entry matches, the loop's initial value `"N"` survives. -/
theorem windCardinal_of_no_match (wd : ℚ)
    (h : ∀ e ∈ cardinal_directions, ¬(e.2.1 ≤ wd ∧ wd < e.2.2)) :
    windCardinal wd = "N" := by
  unfold windCardinal
  have hnone : cardinal_directions.find? (fun e => decide (e.2.1 ≤ wd ∧ wd < e.2.2)) = none := by
    rw [List.find?_eq_none]
    intro e he
    simpa using h e he
  rw [hnone]

/-! ## Claim theorems: wind-direction classification -/

/-- C3, counterexample: at `wind_direction = 0` — inside `[0, 360)` — no
interval of the 8-entry table satisfies `min <= value < max` (the `N`
row's test `337.5 <= 0 < 22.5` fails), the loop's `find?` comes back
empty, and the returned `"N"` comes from the default fallback. -/
theorem c3_counterexample :
    (0:ℚ) ≤ 0 ∧ (0:ℚ) < 360 ∧
    (∀ e ∈ cardinal_directions, ¬(e.2.1 ≤ (0:ℚ) ∧ (0:ℚ) < e.2.2)) ∧
    cardinal_directions.find? (fun e => decide (e.2.1 ≤ (0:ℚ) ∧ (0:ℚ) < e.2.2)) = none ∧
    windCardinal 0 = "N" := by
  have hno := no_match_outside 0 (Or.inl (by norm_num))
  refine ⟨le_refl _, by norm_num, hno, ?_, windCardinal_of_no_match 0 hno⟩
  rw [List.find?_eq_none]
  intro e he
  simpa using hno e he

/-- C3, amended: on `[22.5, 337.5)` exactly one interval of the table
satisfies `min <= value < max`; on `[0, 22.5)` and `[337.5, 360)` no
interval satisfies it (the `N` row's wrapping test `337.5 <= wd < 22.5` is
unsatisfiable), and there the label `"N"` is produced by the
default-to-`"N"` fallback branch of the classification loop. -/
theorem c3_amended (wd : ℚ) (h0 : 0 ≤ wd) (h360 : wd < 360) :
    (22.5 ≤ wd ∧ wd < 337.5 →
      ∃! e, e ∈ cardinal_directions ∧ (e.2.1 ≤ wd ∧ wd < e.2.2)) ∧
    (wd < 22.5 ∨ 337.5 ≤ wd →
      (∀ e ∈ cardinal_directions, ¬(e.2.1 ≤ wd ∧ wd < e.2.2)) ∧ windCardinal wd = "N") := by
  constructor
  · rintro ⟨hl, hu⟩
    rcases lt_or_le wd 67.5 with hc | hc
    · refine ⟨("NE", 22.5, 67.5), ⟨by norm_num [cardinal_directions], hl, hc⟩, ?_⟩
      rintro e ⟨hmem, h1, h2⟩
      unfold cardinal_directions at hmem
      fin_cases hmem <;> norm_num at h1 h2 ⊢ <;> linarith
    rcases lt_or_le wd 112.5 with hc2 | hc2
    · refine ⟨("E", 67.5, 112.5), ⟨by norm_num [cardinal_directions], hc, hc2⟩, ?_⟩
      rintro e ⟨hmem, h1, h2⟩
      unfold cardinal_directions at hmem
      fin_cases hmem <;> norm_num at h1 h2 ⊢ <;> linarith
    rcases lt_or_le wd 157.5 with hc3 | hc3
    · refine ⟨("SE", 112.5, 157.5), ⟨by norm_num [cardinal_directions], hc2, hc3⟩, ?_⟩
      rintro e ⟨hmem, h1, h2⟩
      unfold cardinal_directions at hmem
      fin_cases hmem <;> norm_num at h1 h2 ⊢ <;> linarith
    rcases lt_or_le wd 202.5 with hc4 | hc4
    · refine ⟨("S", 157.5, 202.5), ⟨by norm_num [cardinal_directions], hc3, hc4⟩, ?_⟩
      rintro e ⟨hmem, h1, h2⟩
      unfold cardinal_directions at hmem
      fin_cases hmem <;> norm_num at h1 h2 ⊢ <;> linarith
    rcases lt_or_le wd 247.5 with hc5 | hc5
    · refine ⟨("SW", 202.5, 247.5), ⟨by norm_num [cardinal_directions], hc4, hc5⟩, ?_⟩
      rintro e ⟨hmem, h1, h2⟩
      unfold cardinal_directions at hmem
      fin_cases hmem <;> norm_num at h1 h2 ⊢ <;> linarith
    rcases lt_or_le wd 292.5 with hc6 | hc6
    · refine ⟨("W", 247.5, 292.5), ⟨by norm_num [cardinal_directions], hc5, hc6⟩, ?_⟩
      rintro e ⟨hmem, h1, h2⟩
      unfold cardinal_directions at hmem
      fin_cases hmem <;> norm_num at h1 h2 ⊢ <;> linarith
    · refine ⟨("NW", 292.5, 337.5), ⟨by norm_num [cardinal_directions], hc6, hu⟩, ?_⟩
      rintro e ⟨hmem, h1, h2⟩
      unfold cardinal_directions at hmem
      fin_cases hmem <;> norm_num at h1 h2 ⊢ <;> linarith
  · intro h
    have hno := no_match_outside wd h
    exact ⟨hno, windCardinal_of_no_match wd hno⟩

/-- C3, witness: at 190 degrees exactly one interval matches, and at 5
degrees (inside the wrap region) the fallback label `"N"` is returned. -/
theorem c3_witness :
    (∃! e, e ∈ cardinal_directions ∧ (e.2.1 ≤ (190:ℚ) ∧ (190:ℚ) < e.2.2)) ∧
    windCardinal 5 = "N" :=
  ⟨(c3_amended 190 (by norm_num) (by norm_num)).1 ⟨by norm_num, by norm_num⟩,
   ((c3_amended 5 (by norm_num) (by norm_num)).2 (Or.inl (by norm_num))).2⟩

/-- C4: wind-direction classification is total over `[0, 360)` — it
returns one of the 8 cardinal labels — and every interval boundary
(0, 22.5, 67.5, …, 337.5) classifies into the interval that starts there;
in particular 0 and 359.9 both classify as `"N"`. -/
theorem c4_classification_total :
    (∀ wd : ℚ, 0 ≤ wd → wd < 360 →
      windCardinal wd ∈ ["N", "NE", "E", "SE", "S", "SW", "W", "NW"]) ∧
    windCardinal 0 = "N" ∧ windCardinal 22.5 = "NE" ∧ windCardinal 67.5 = "E" ∧
    windCardinal 112.5 = "SE" ∧ windCardinal 157.5 = "S" ∧ windCardinal 202.5 = "SW" ∧
    windCardinal 247.5 = "W" ∧ windCardinal 292.5 = "NW" ∧ windCardinal 337.5 = "N" ∧
    windCardinal 359.9 = "N" := by
  refine ⟨?_, ?_, ?_, ?_, ?_, ?_, ?_, ?_, ?_, ?_, ?_⟩
  · intro wd _ _
    unfold windCardinal
    cases h : cardinal_directions.find? (fun e => decide (e.2.1 ≤ wd ∧ wd < e.2.2)) with
    | none => simp
    | some e =>
      have hm := List.mem_of_find?_eq_some h
      fin_cases hm <;> simp
  all_goals norm_num [windCardinal, cardinal_directions, List.find?]

/-- C4, witness: 45 degrees classifies into one of the 8 labels. -/
theorem c4_witness :
    windCardinal 45 ∈ ["N", "NE", "E", "SE", "S", "SW", "W", "NW"] :=
  c4_classification_total.1 45 (by norm_num) (by norm_num)

/-- C10: for any `wind_direction` outside `[0, 360)` (360, larger, or
negative) no interval of the table matches, the classification defaults
to `"N"`, and `format_weather_message` still returns a well-formed message
announcing wind from `N`. -/
theorem c10_out_of_range (wd : ℚ) (h : wd < 0 ∨ 360 ≤ wd) :
    (∀ e ∈ cardinal_directions, ¬(e.2.1 ≤ wd ∧ wd < e.2.2)) ∧
    windCardinal wd = "N" ∧
    ∀ (w : Weather) (now : String), w.wind_direction = wd →
      IsSubstr "kilometers per hour from N" (format_weather_message (some w) now) := by
  have h' : wd < 22.5 ∨ 337.5 ≤ wd := by
    rcases h with h | h
    · left; linarith
    · right; linarith
  have hno := no_match_outside wd h'
  have hN := windCardinal_of_no_match wd hno
  refine ⟨hno, hN, ?_⟩
  intro w now hwd
  simp only [format_weather_message]
  rw [hwd, hN]
  refine ⟨("Current weather conditions: " ++ w.conditions ++ ". " ++
            "Temperature " ++ pyStr w.temperature ++ " degrees Celsius. " ++
            "Humidity " ++ pyStr w.humidity ++ " percent. " ++
            "Wind " ++ pyStr w.wind_speed ++ " ").data,
          (". " ++ "Pressure " ++ pyStr w.pressure ++ " millibars. " ++
            "Reported at " ++ now ++ " local time.").data, ?_⟩
  simp [String.data_append]

/-- C10, witness: wind direction 360 is out of range, classifies as `"N"`
via the fallback, and the formatted message announces wind from `N`. -/
theorem c10_witness :
    ((360:ℚ) < 0 ∨ (360:ℚ) ≤ 360) ∧ windCardinal 360 = "N" ∧
    IsSubstr "kilometers per hour from N"
      (format_weather_message (some ⟨22, 60, 1013, 10, 360, "Cloudy"⟩) "12:00") := by
  have h := c10_out_of_range 360 (Or.inr (by norm_num))
  exact ⟨Or.inr (by norm_num), h.2.1, h.2.2 ⟨22, 60, 1013, 10, 360, "Cloudy"⟩ "12:00" rfl⟩

/-! ## Claim theorems: message formatting -/

/-- C1, counterexample: for the observation `(temp 22.5, humidity 60,
pressure 1013, windSpeed 10, winddir 190, "Cloudy")` the wind classifies
as `"S"` (the `S` interval `[157.5, 202.5)` contains 190), not `"SW"`, and
the formatted message does not contain `"10 kilometers per hour from SW"`. -/
theorem c1_counterexample :
    windCardinal 190 = "S" ∧
    ¬ IsSubstr "10 kilometers per hour from SW"
        (format_weather_message (some ⟨22.5, 60, 1013, 10, 190, "Cloudy"⟩) "12:00") := by
  have hS : windCardinal 190 = "S" := by
    norm_num [windCardinal, cardinal_directions, List.find?]
  have e1 : pyStr 22.5 = "22.5" := by norm_num [pyStr, decCore]; rfl
  have e2 : pyStr 60 = "60" := by norm_num [pyStr, decCore]; rfl
  have e3 : pyStr 1013 = "1013" := by norm_num [pyStr, decCore]; rfl
  have e4 : pyStr 10 = "10" := by norm_num [pyStr, decCore]; rfl
  have hmsg : format_weather_message (some ⟨22.5, 60, 1013, 10, 190, "Cloudy"⟩) "12:00" =
      "Current weather conditions: Cloudy. Temperature 22.5 degrees Celsius. Humidity 60 percent. Wind 10 kilometers per hour from S. Pressure 1013 millibars. Reported at 12:00 local time." := by
    simp only [format_weather_message]
    rw [hS, e1, e2, e3, e4]
    rfl
  rw [hmsg]
  exact ⟨hS, by decide⟩

/-- C1, amended: for the observation `(temp 22.5, humidity 60, pressure
1013, windSpeed 10, winddir 190, "Cloudy")`, `format_weather_message`
classifies the wind as `"S"` and the returned message contains the
substrings "Cloudy", "22.5 degrees Celsius", "60 percent",
"10 kilometers per hour from S", and "1013 millibars". -/
theorem c1_amended :
    windCardinal 190 = "S" ∧
    ∀ now : String,
      IsSubstr "Cloudy"
        (format_weather_message (some ⟨22.5, 60, 1013, 10, 190, "Cloudy"⟩) now) ∧
      IsSubstr "22.5 degrees Celsius"
        (format_weather_message (some ⟨22.5, 60, 1013, 10, 190, "Cloudy"⟩) now) ∧
      IsSubstr "60 percent"
        (format_weather_message (some ⟨22.5, 60, 1013, 10, 190, "Cloudy"⟩) now) ∧
      IsSubstr "10 kilometers per hour from S"
        (format_weather_message (some ⟨22.5, 60, 1013, 10, 190, "Cloudy"⟩) now) ∧
      IsSubstr "1013 millibars"
        (format_weather_message (some ⟨22.5, 60, 1013, 10, 190, "Cloudy"⟩) now) := by
  have hS : windCardinal 190 = "S" := by
    norm_num [windCardinal, cardinal_directions, List.find?]
  have e1 : pyStr 22.5 = "22.5" := by norm_num [pyStr, decCore]; rfl
  have e2 : pyStr 60 = "60" := by norm_num [pyStr, decCore]; rfl
  have e3 : pyStr 1013 = "1013" := by norm_num [pyStr, decCore]; rfl
  have e4 : pyStr 10 = "10" := by norm_num [pyStr, decCore]; rfl
  have hform : ∀ now : String,
      format_weather_message (some ⟨22.5, 60, 1013, 10, 190, "Cloudy"⟩) now =
      "Current weather conditions: Cloudy. Temperature 22.5 degrees Celsius. Humidity 60 percent. Wind 10 kilometers per hour from S. Pressure 1013 millibars. Reported at " ++
        now ++ " local time." := by
    intro now
    simp only [format_weather_message]
    rw [hS, e1, e2, e3, e4]
    apply String.ext
    simp [String.data_append]
  refine ⟨hS, fun now => ?_⟩
  rw [hform now]
  exact ⟨isSubstr_append_left _ (isSubstr_append_left _ (by decide)),
         isSubstr_append_left _ (isSubstr_append_left _ (by decide)),
         isSubstr_append_left _ (isSubstr_append_left _ (by decide)),
         isSubstr_append_left _ (isSubstr_append_left _ (by decide)),
         isSubstr_append_left _ (isSubstr_append_left _ (by decide))⟩

/-- C5, counterexample: `format_weather_message` is not a function of the
observation alone — the same observation formatted at wall-clock readings
00:00 and 00:01 yields two different strings (they differ in the
`Reported at` stamp). -/
theorem c5_counterexample :
    format_weather_message (some ⟨22, 60, 1013, 10, 190, "Cloudy"⟩) "00:00" ≠
    format_weather_message (some ⟨22, 60, 1013, 10, 190, "Cloudy"⟩) "00:01" := by
  have hS : windCardinal 190 = "S" := by
    norm_num [windCardinal, cardinal_directions, List.find?]
  have e1 : pyStr 22 = "22" := by norm_num [pyStr, decCore]; rfl
  have e2 : pyStr 60 = "60" := by norm_num [pyStr, decCore]; rfl
  have e3 : pyStr 1013 = "1013" := by norm_num [pyStr, decCore]; rfl
  have e4 : pyStr 10 = "10" := by norm_num [pyStr, decCore]; rfl
  have h1 : format_weather_message (some ⟨22, 60, 1013, 10, 190, "Cloudy"⟩) "00:00" =
      "Current weather conditions: Cloudy. Temperature 22 degrees Celsius. Humidity 60 percent. Wind 10 kilometers per hour from S. Pressure 1013 millibars. Reported at 00:00 local time." := by
    simp only [format_weather_message]
    rw [hS, e1, e2, e3, e4]
    rfl
  have h2 : format_weather_message (some ⟨22, 60, 1013, 10, 190, "Cloudy"⟩) "00:01" =
      "Current weather conditions: Cloudy. Temperature 22 degrees Celsius. Humidity 60 percent. Wind 10 kilometers per hour from S. Pressure 1013 millibars. Reported at 00:01 local time." := by
    simp only [format_weather_message]
    rw [hS, e1, e2, e3, e4]
    rfl
  rw [h1, h2]
  decide

/-- C5, amended: `format_weather_message` is deterministic given the
observation and the format-time clock reading: the result is the
observation-determined `messageBody` followed by the `Reported at` stamp
of the clock argument, so two invocations with the same observation agree
everywhere but the timestamp, and with equal clock readings they return
the identical string. -/
theorem c5_amended (w : Weather) (now1 now2 : String) :
    format_weather_message (some w) now1 =
      messageBody w ++ ("Reported at " ++ now1 ++ " local time.") ∧
    (now1 = now2 →
      format_weather_message (some w) now1 = format_weather_message (some w) now2) := by
  constructor
  · simp only [format_weather_message, messageBody]
    apply String.ext
    simp [String.data_append]
  · rintro rfl; rfl

/-- C5, witness: at a concrete observation and the clock reading 12:00,
the message is the body plus the stamp, and equal clock readings yield
the identical string. -/
theorem c5_witness :
    format_weather_message (some ⟨22, 60, 1013, 10, 190, "Cloudy"⟩) "12:00" =
      messageBody ⟨22, 60, 1013, 10, 190, "Cloudy"⟩ ++
        ("Reported at " ++ "12:00" ++ " local time.") ∧
    format_weather_message (some ⟨22, 60, 1013, 10, 190, "Cloudy"⟩) "12:00" =
      format_weather_message (some ⟨22, 60, 1013, 10, 190, "Cloudy"⟩) "12:00" :=
  ⟨(c5_amended ⟨22, 60, 1013, 10, 190, "Cloudy"⟩ "12:00" "12:00").1,
   (c5_amended ⟨22, 60, 1013, 10, 190, "Cloudy"⟩ "12:00" "12:00").2 rfl⟩

/-- C7: `format_weather_message` never raises — on `None` it returns the
fixed sentence "Unable to get weather data at this time.", and for every
valid observation the returned string contains the literal substrings
"Temperature", "Humidity", "Wind", and "Pressure". -/
theorem c7_format_total :
    (∀ now : String,
      format_weather_message none now = "Unable to get weather data at this time.") ∧
    ∀ (w : Weather) (now : String),
      IsSubstr "Temperature" (format_weather_message (some w) now) ∧
      IsSubstr "Humidity" (format_weather_message (some w) now) ∧
      IsSubstr "Wind" (format_weather_message (some w) now) ∧
      IsSubstr "Pressure" (format_weather_message (some w) now) := by
  refine ⟨fun _ => rfl, fun w now => ?_⟩
  simp only [format_weather_message]
  refine ⟨⟨("Current weather conditions: " ++ w.conditions ++ ". ").data,
          (" " ++ pyStr w.temperature ++ " degrees Celsius. " ++
            "Humidity " ++ pyStr w.humidity ++ " percent. " ++
            "Wind " ++ pyStr w.wind_speed ++ " kilometers per hour from " ++
            windCardinal w.wind_direction ++ ". " ++
            "Pressure " ++ pyStr w.pressure ++ " millibars. " ++
            "Reported at " ++ now ++ " local time.").data, ?_⟩,
         ⟨("Current weather conditions: " ++ w.conditions ++ ". " ++
            "Temperature " ++ pyStr w.temperature ++ " degrees Celsius. ").data,
          (" " ++ pyStr w.humidity ++ " percent. " ++
            "Wind " ++ pyStr w.wind_speed ++ " kilometers per hour from " ++
            windCardinal w.wind_direction ++ ". " ++
            "Pressure " ++ pyStr w.pressure ++ " millibars. " ++
            "Reported at " ++ now ++ " local time.").data, ?_⟩,
         ⟨("Current weather conditions: " ++ w.conditions ++ ". " ++
            "Temperature " ++ pyStr w.temperature ++ " degrees Celsius. " ++
            "Humidity " ++ pyStr w.humidity ++ " percent. ").data,
          (" " ++ pyStr w.wind_speed ++ " kilometers per hour from " ++
            windCardinal w.wind_direction ++ ". " ++
            "Pressure " ++ pyStr w.pressure ++ " millibars. " ++
            "Reported at " ++ now ++ " local time.").data, ?_⟩,
         ⟨("Current weather conditions: " ++ w.conditions ++ ". " ++
            "Temperature " ++ pyStr w.temperature ++ " degrees Celsius. " ++
            "Humidity " ++ pyStr w.humidity ++ " percent. " ++
            "Wind " ++ pyStr w.wind_speed ++ " kilometers per hour from " ++
            windCardinal w.wind_direction ++ ". ").data,
          (" " ++ pyStr w.pressure ++ " millibars. " ++
            "Reported at " ++ now ++ " local time.").data, ?_⟩⟩ <;>
    simp [String.data_append]

/-! ## Claim theorems: the fetch stage -/

/-- C6: if any required field is missing from the first observation
element, the fetch yields a validation failure naming a field that is
indeed missing (the first one in the source's check order: `metric`, its
subfields `temp`, `pressure`, `windSpeed`, then `humidity`, then
`winddir`), prints the diagnostic line naming it, and returns no record;
and every record the fetch does return was extracted from an observation
carrying all required fields, so it is fully populated — no
partially-populated record is ever returned. -/
theorem c6_validation :
    (∀ (cfg : Config) (status : Nat) (raw : String) (doc : ApiDoc)
       (o : ObsJson) (rest : List ObsJson),
      ¬(cfg.WU_API_KEY = "" ∨ cfg.WU_STATION_ID = "") →
      status < 400 →
      doc.observations = some (o :: rest) →
      requiredFieldMissing o →
      ∃ err, fetchResult cfg (.resp status (.json raw doc)) = .error err ∧
        ((∃ f, err = .missingField f ∧
            ((f = "metric" ∧ o.metric = none) ∨ (f = "humidity" ∧ o.humidity = none) ∨
              (f = "winddir" ∧ o.winddir = none)) ∧
            missingFieldLine f ∈ fetchPrints cfg (.resp status (.json raw doc))) ∨
         (∃ s m, err = .missingSubfield s "metric" ∧ o.metric = some m ∧
            ((s = "temp" ∧ m.temp = none) ∨ (s = "pressure" ∧ m.pressure = none) ∨
              (s = "windSpeed" ∧ m.windSpeed = none)) ∧
            missingSubfieldLine s "metric" ∈ fetchPrints cfg (.resp status (.json raw doc))))) ∧
    (∀ (cfg : Config) (net : NetResult) (w : Weather),
      fetchResult cfg net = .ok w →
      ∃ (status : Nat) (raw : String) (doc : ApiDoc) (o : ObsJson)
        (rest : List ObsJson) (m : MetricJson) (t p ws hum wdir : ℚ),
        net = .resp status (.json raw doc) ∧
        doc.observations = some (o :: rest) ∧
        o.metric = some m ∧ m.temp = some t ∧ m.pressure = some p ∧
        m.windSpeed = some ws ∧ o.humidity = some hum ∧ o.winddir = some wdir ∧
        w = ⟨t, hum, p, ws, wdir, conditionsOf o⟩) := by
  constructor
  · rintro cfg status raw doc o rest hcfg hst hobs hmiss
    have hst' : ¬ 400 ≤ status := not_le.mpr hst
    cases hmet : o.metric with
    | none =>
      refine ⟨.missingField "metric", ?_, Or.inl ⟨"metric", rfl, Or.inl ⟨rfl, rfl⟩, ?_⟩⟩
      · simp only [fetchResult, get_weather_data, if_neg hcfg, if_neg hst', hobs, hmet]
      · have hl : missingFieldLine "metric" =
            "Error: Missing field 'metric' in observation data" := rfl
        rw [hl]
        simp only [fetchPrints, get_weather_data, if_neg hcfg, if_neg hst', hobs, hmet]
        simp
    | some m =>
      cases ht : m.temp with
      | none =>
        refine ⟨.missingSubfield "temp" "metric", ?_,
          Or.inr ⟨"temp", m, rfl, rfl, Or.inl ⟨rfl, ht⟩, ?_⟩⟩
        · simp only [fetchResult, get_weather_data, if_neg hcfg, if_neg hst', hobs, hmet, ht]
        · have hl : missingSubfieldLine "temp" "metric" =
              "Error: Missing subfield 'temp' in metric" := rfl
          rw [hl]
          simp only [fetchPrints, get_weather_data, if_neg hcfg, if_neg hst', hobs, hmet, ht]
          simp
      | some t =>
        cases hp : m.pressure with
        | none =>
          refine ⟨.missingSubfield "pressure" "metric", ?_,
            Or.inr ⟨"pressure", m, rfl, rfl, Or.inr (Or.inl ⟨rfl, hp⟩), ?_⟩⟩
          · simp only [fetchResult, get_weather_data, if_neg hcfg, if_neg hst', hobs, hmet,
              ht, hp]
          · have hl : missingSubfieldLine "pressure" "metric" =
                "Error: Missing subfield 'pressure' in metric" := rfl
            rw [hl]
            simp only [fetchPrints, get_weather_data, if_neg hcfg, if_neg hst', hobs, hmet,
              ht, hp]
            simp
        | some p =>
          cases hws : m.windSpeed with
          | none =>
            refine ⟨.missingSubfield "windSpeed" "metric", ?_,
              Or.inr ⟨"windSpeed", m, rfl, rfl, Or.inr (Or.inr ⟨rfl, hws⟩), ?_⟩⟩
            · simp only [fetchResult, get_weather_data, if_neg hcfg, if_neg hst', hobs, hmet,
                ht, hp, hws]
            · have hl : missingSubfieldLine "windSpeed" "metric" =
                  "Error: Missing subfield 'windSpeed' in metric" := rfl
              rw [hl]
              simp only [fetchPrints, get_weather_data, if_neg hcfg, if_neg hst', hobs, hmet,
                ht, hp, hws]
              simp
          | some ws =>
            cases hhum : o.humidity with
            | none =>
              refine ⟨.missingField "humidity", ?_,
                Or.inl ⟨"humidity", rfl, Or.inr (Or.inl ⟨rfl, rfl⟩), ?_⟩⟩
              · simp only [fetchResult, get_weather_data, if_neg hcfg, if_neg hst', hobs,
                  hmet, ht, hp, hws, hhum]
              · have hl : missingFieldLine "humidity" =
                    "Error: Missing field 'humidity' in observation data" := rfl
                rw [hl]
                simp only [fetchPrints, get_weather_data, if_neg hcfg, if_neg hst', hobs,
                  hmet, ht, hp, hws, hhum]
                simp
            | some hum =>
              cases hwd : o.winddir with
              | none =>
                refine ⟨.missingField "winddir", ?_,
                  Or.inl ⟨"winddir", rfl, Or.inr (Or.inr ⟨rfl, rfl⟩), ?_⟩⟩
                · simp only [fetchResult, get_weather_data, if_neg hcfg, if_neg hst', hobs,
                    hmet, ht, hp, hws, hhum, hwd]
                · have hl : missingFieldLine "winddir" =
                      "Error: Missing field 'winddir' in observation data" := rfl
                  rw [hl]
                  simp only [fetchPrints, get_weather_data, if_neg hcfg, if_neg hst', hobs,
                    hmet, ht, hp, hws, hhum, hwd]
                  simp
              | some wdir =>
                exfalso
                rcases hmiss with h | ⟨m2, hm2, h⟩ | h | h
                · rw [hmet] at h
                  exact Option.noConfusion h
                · rw [hmet] at hm2
                  injection hm2 with hm2
                  subst hm2
                  rcases h with h | h | h
                  · rw [ht] at h
                    exact Option.noConfusion h
                  · rw [hp] at h
                    exact Option.noConfusion h
                  · rw [hws] at h
                    exact Option.noConfusion h
                · rw [hhum] at h
                  exact Option.noConfusion h
                · rw [hwd] at h
                  exact Option.noConfusion h
  · intro cfg net w h
    by_cases hcfg : cfg.WU_API_KEY = "" ∨ cfg.WU_STATION_ID = ""
    · simp [fetchResult, get_weather_data, if_pos hcfg] at h
    cases net with
    | exn msg => simp [fetchResult, get_weather_data, if_neg hcfg] at h
    | resp status body =>
      by_cases hst : 400 ≤ status
      · simp [fetchResult, get_weather_data, if_neg hcfg, if_pos hst] at h
      cases body with
      | invalidJson raw err =>
        simp [fetchResult, get_weather_data, if_neg hcfg, if_neg hst] at h
      | json raw doc =>
        cases hobs : doc.observations with
        | none =>
          simp [fetchResult, get_weather_data, if_neg hcfg, if_neg hst, hobs] at h
        | some l =>
          cases l with
          | nil =>
            simp [fetchResult, get_weather_data, if_neg hcfg, if_neg hst, hobs] at h
          | cons o rest =>
            cases hmet : o.metric with
            | none =>
              simp [fetchResult, get_weather_data, if_neg hcfg, if_neg hst, hobs, hmet] at h
            | some m =>
              cases ht : m.temp with
              | none =>
                simp [fetchResult, get_weather_data, if_neg hcfg, if_neg hst, hobs,
                  hmet, ht] at h
              | some t =>
                cases hp : m.pressure with
                | none =>
                  simp [fetchResult, get_weather_data, if_neg hcfg, if_neg hst, hobs,
                    hmet, ht, hp] at h
                | some p =>
                  cases hws : m.windSpeed with
                  | none =>
                    simp [fetchResult, get_weather_data, if_neg hcfg, if_neg hst, hobs,
                      hmet, ht, hp, hws] at h
                  | some ws =>
                    cases hhum : o.humidity with
                    | none =>
                      simp [fetchResult, get_weather_data, if_neg hcfg, if_neg hst, hobs,
                        hmet, ht, hp, hws, hhum] at h
                    | some hum =>
                      cases hwd : o.winddir with
                      | none =>
                        simp [fetchResult, get_weather_data, if_neg hcfg, if_neg hst, hobs,
                          hmet, ht, hp, hws, hhum, hwd] at h
                      | some wdir =>
                        simp only [fetchResult, get_weather_data, if_neg hcfg, if_neg hst,
                          hobs, hmet, ht, hp, hws, hhum, hwd] at h
                        injection h with h2
                        exact ⟨status, raw, doc, o, rest, m, t, p, ws, hum, wdir,
                          rfl, hobs, hmet, ht, hp, hws, hhum, hwd, h2.symm⟩

/-- C6, witness: with `humidity` removed from the sample observation the
fetch fails with a validation error naming a missing field and prints the
line naming it; and the successful sample fetch yields a record whose six
fields all come from the input. -/
theorem c6_witness :
    (∃ err, fetchResult sampleConfig
        (.resp 200 (.json "(raw body)" ⟨some [sampleObsNoHumidity]⟩)) = .error err ∧
      ((∃ f, err = .missingField f ∧
          ((f = "metric" ∧ sampleObsNoHumidity.metric = none) ∨
            (f = "humidity" ∧ sampleObsNoHumidity.humidity = none) ∨
            (f = "winddir" ∧ sampleObsNoHumidity.winddir = none)) ∧
          missingFieldLine f ∈ fetchPrints sampleConfig
            (.resp 200 (.json "(raw body)" ⟨some [sampleObsNoHumidity]⟩))) ∨
       (∃ s m, err = .missingSubfield s "metric" ∧ sampleObsNoHumidity.metric = some m ∧
          ((s = "temp" ∧ m.temp = none) ∨ (s = "pressure" ∧ m.pressure = none) ∨
            (s = "windSpeed" ∧ m.windSpeed = none)) ∧
          missingSubfieldLine s "metric" ∈ fetchPrints sampleConfig
            (.resp 200 (.json "(raw body)" ⟨some [sampleObsNoHumidity]⟩))))) ∧
    (∃ (status : Nat) (raw : String) (doc : ApiDoc) (o : ObsJson)
      (rest : List ObsJson) (m : MetricJson) (t p ws hum wdir : ℚ),
      sampleNet = .resp status (.json raw doc) ∧
      doc.observations = some (o :: rest) ∧
      o.metric = some m ∧ m.temp = some t ∧ m.pressure = some p ∧
      m.windSpeed = some ws ∧ o.humidity = some hum ∧ o.winddir = some wdir ∧
      sampleWeather = ⟨t, hum, p, ws, wdir, conditionsOf o⟩) :=
  ⟨c6_validation.1 sampleConfig 200 "(raw body)" ⟨some [sampleObsNoHumidity]⟩
      sampleObsNoHumidity []
      (by decide) (by norm_num) rfl (Or.inr (Or.inr (Or.inl rfl))),
   c6_validation.2 sampleConfig sampleNet sampleWeather rfl⟩

/-- C8: a well-formed JSON body with an empty (or absent) `observations`
array produces the no-data failure, a body that is not valid JSON produces
the parse failure, and the two failures are distinct. -/
theorem c8_failure_distinction (cfg : Config)
    (hcfg : ¬(cfg.WU_API_KEY = "" ∨ cfg.WU_STATION_ID = ""))
    (status : Nat) (hst : status < 400) (raw err : String) (doc : ApiDoc)
    (hdoc : doc.observations = none ∨ doc.observations = some []) :
    fetchResult cfg (.resp status (.json raw doc)) = .error .noObservations ∧
    fetchResult cfg (.resp status (.invalidJson raw err)) = .error (.parseError err) ∧
    FetchErr.noObservations ≠ FetchErr.parseError err := by
  have hst' : ¬ 400 ≤ status := not_le.mpr hst
  refine ⟨?_, ?_, by simp⟩
  · rcases hdoc with hdoc | hdoc <;>
      simp only [fetchResult, get_weather_data, if_neg hcfg, if_neg hst', hdoc]
  · simp only [fetchResult, get_weather_data, if_neg hcfg, if_neg hst']

/-- C8, witness: at the sample configuration, a 200 response with an empty
`observations` array and a 200 response with an invalid-JSON body produce
the two distinct failures. -/
theorem c8_witness :
    fetchResult sampleConfig (.resp 200 (.json "(raw body)" ⟨some []⟩)) =
      .error .noObservations ∧
    fetchResult sampleConfig (.resp 200 (.invalidJson "(raw body)" "Expecting value")) =
      .error (.parseError "Expecting value") ∧
    FetchErr.noObservations ≠ FetchErr.parseError "Expecting value" :=
  c8_failure_distinction sampleConfig (by decide) 200 (by norm_num)
    "(raw body)" "Expecting value" ⟨some []⟩ (Or.inr rfl)

/-- C2, counterexample: on the successful sample fetch `main` performs a
second HTTP GET (the raw-response debug dump of source lines 174–183) and
never hands the message to the telephony origination step — `main` does
not call `announce_to_allstar` — so the trace has two GETs and zero
originations, not one and one. -/
theorem c2_counterexample :
    fetchResult sampleConfig sampleNet = .ok sampleWeather ∧
    countGets (mainEvents sampleConfig sampleNet) = 2 ∧
    countOriginates (mainEvents sampleConfig sampleNet) = 0 ∧
    ¬(countGets (mainEvents sampleConfig sampleNet) = 1 ∧
      countOriginates (mainEvents sampleConfig sampleNet) = 1) := by
  refine ⟨rfl, by decide, by decide, ?_⟩
  rintro ⟨h1, _⟩
  have : countGets (mainEvents sampleConfig sampleNet) = 2 := by decide
  omega

/-- C2, amended: each invocation of `main` performs at most one fetch via
`get_weather_data`; on a successful fetch it issues exactly one further
HTTP GET (the raw-response debug dump), for a total of two, and performs
the telephony origination step zero times (`announce_to_allstar` is
defined but never called). -/
theorem c2_amended (cfg : Config) (net : NetResult) (w : Weather)
    (h : fetchResult cfg net = .ok w) :
    countGets (mainEvents cfg net) = 2 ∧ countOriginates (mainEvents cfg net) = 0 := by
  have hcfg : ¬(cfg.WU_API_KEY = "" ∨ cfg.WU_STATION_ID = "") := by
    intro hc
    simp [fetchResult, get_weather_data, if_pos hc] at h
  simp only [fetchResult] at h
  simp [mainEvents, if_neg hcfg, h, countGets, countOriginates, List.filter]

/-- C2, witness: the amended count theorem at the successful sample
fetch. -/
theorem c2_witness :
    countGets (mainEvents sampleConfig sampleNet) = 2 ∧
    countOriginates (mainEvents sampleConfig sampleNet) = 0 :=
  c2_amended sampleConfig sampleNet sampleWeather rfl
